import Mathlib

/-!
Verification of the Local Coordination Core of `mcp-kit`
(`src/server/local/node-instance/index.ts`, `src/server/local/proxy/index.ts`,
`src/server/server-starter.ts`) against its natural-language specification.

The TypeScript is shallowly embedded: each effectful primitive (filesystem
open/read/unlink, loopback HTTP calls, port binds) is modelled either by an
explicit state type or by an oracle recording the result the environment
would return, and each source function becomes a total Lean function over
those models, mirroring the source's control flow line by line.
-/

/-! ## JSON values

`readLock` feeds the raw file content through `JSON.parse` and then checks
the dynamic types of three fields.  We model a parsed JSON document with an
inductive; a file whose content does not parse (empty file, `not-json`, …)
is represented by `none` at the `Option Json` layer.  JSON objects are
modelled with their field lists; `getField` returns the value of a key on an
object and `none` on every non-object, matching JavaScript property access
on a parsed value (a non-object or a missing key yields `undefined`, and a
`null` receiver throws — which the source catches, so both outcomes land in
the same `null` return). -/

inductive Json where
  | null : Json
  | bool (b : Bool) : Json
  | num (n : Int) : Json
  | str (s : String) : Json
  | arr (elems : List Json) : Json
  | obj (fields : List (String × Json)) : Json
deriving Repr, BEq

def getField : Json → String → Option Json
  | Json.obj fields, k => (fields.find? (fun p => p.1 == k)).map (fun p => p.2)
  | _, _ => none

/-- Does an optional JSON value hold a number?  (JS `typeof x === 'number'`.) -/
def isJsonNum : Option Json → Bool
  | some (Json.num _) => true
  | _ => false

/-- Does an optional JSON value hold a string?  (JS `typeof x === 'string'`.) -/
def isJsonStr : Option Json → Bool
  | some (Json.str _) => true
  | _ => false

/-! ## Lock record and the lock-file filesystem model

`InstanceLock` is the record `{pid, version, timestamp}` from
`node-instance/index.ts`.  The lock path's filesystem state is: nothing at
the path, a directory, or a regular file whose content either parses to a
`Json` or does not.  `permissionDenied`/`ioError` model the environments in
which an exclusive-create open would fail with `EACCES`/`EIO` even though
nothing exists at the path. -/

structure InstanceLock where
  pid : Int
  version : String
  timestamp : Int
deriving Repr, DecidableEq

inductive FsNode where
  | file (parsed : Option Json) : FsNode
  | directory : FsNode
deriving Repr, BEq

structure FsState where
  entry : Option FsNode
  permissionDenied : Bool := false
  ioError : Bool := false
deriving Repr

inductive SysError where
  | EEXIST
  | EACCES
  | EIO
deriving Repr, DecidableEq

/-- POSIX `open(path, O_WRONLY | O_CREAT | O_EXCL)` — Node's `'wx'` flag
(`fs.openSync(this.lockPath, 'wx')`).  With `O_EXCL`, the open fails with
`EEXIST` whenever *anything* already exists at the path, a directory
included; only when the path is free can a permission or I/O failure
surface. -/
def openWx (fs : FsState) : Except SysError Unit :=
  match fs.entry with
  | some _ => Except.error SysError.EEXIST
  | none =>
      if fs.permissionDenied then Except.error SysError.EACCES
      else if fs.ioError then Except.error SysError.EIO
      else Except.ok ()

/-- The JSON document `tryBecomeMain` serialises into a freshly created
lock file. -/
def lockJson (l : InstanceLock) : Json :=
  Json.obj [("pid", Json.num l.pid), ("version", Json.str l.version),
            ("timestamp", Json.num l.timestamp)]

/-- `InstanceManager.tryBecomeMain` (node-instance/index.ts:93-110): open the
lock path with `'wx'`; on success write the lock record and return `true`;
when the open throws with `err.code === 'EEXIST'` return `false`; rethrow
every other error. -/
def tryBecomeMain (fs : FsState) (self : InstanceLock) :
    Except SysError (Bool × FsState) :=
  match openWx fs with
  | Except.ok () =>
      Except.ok (true, { fs with entry := some (FsNode.file (some (lockJson self))) })
  | Except.error SysError.EEXIST => Except.ok (false, fs)
  | Except.error e => Except.error e

/-- The field-type validation inside `readLock` (lines 120-127): require a
numeric `pid`, a string `version`, and a numeric `timestamp`. -/
def decodeLock (j : Json) : Option InstanceLock :=
  match getField j "pid", getField j "version", getField j "timestamp" with
  | some (Json.num pid), some (Json.str v), some (Json.num ts) =>
      some { pid := pid, version := v, timestamp := ts }
  | _, _, _ => none

/-- `InstanceManager.readLock` (node-instance/index.ts:112-132):
`existsSync` false → `null`; otherwise `readFileSync` + `JSON.parse` +
field-type checks inside a `try` whose `catch` returns `null`.  A directory
at the path makes `readFileSync` throw `EISDIR`, which the `catch`
swallows; unparseable content makes `JSON.parse` throw, likewise caught.
The result type is `Except` to make "never throws" a provable statement:
no branch of the source escapes the `try`. -/
def readLock (fs : FsState) : Except SysError (Option InstanceLock) :=
  match fs.entry with
  | none => Except.ok none
  | some FsNode.directory => Except.ok none
  | some (FsNode.file none) => Except.ok none
  | some (FsNode.file (some j)) => Except.ok (decodeLock j)

/-- `InstanceManager.removeLock` (lines 144-146): `unlinkSync` inside a
`try { } catch { }` — idempotent, absence is success. -/
def removeLock (fs : FsState) : FsState :=
  { fs with entry := none }

/-- `InstanceManager.isPidAlive` (lines 148-151): `pid <= 0` is dead;
otherwise a null-signal `process.kill(pid, 0)` probe, answered here by the
host oracle `alive`. -/
def isPidAlive (alive : Int → Bool) (pid : Int) : Bool :=
  if pid ≤ 0 then false else alive pid

/-! ## Default lock path

`InstanceManager`'s constructor (node-instance/index.ts:66-71):

    this._lockPath = opts.lockPath ?? path.join(os.tmpdir(), 'mcp-kit-8989.lock');
    this._port = opts.port ?? 8989;

The default file name is the string literal `'mcp-kit-8989.lock'` — the
configured port does not appear in it. -/

structure InstanceManagerOptions where
  lockPath : Option String := none
  port : Option Nat := none
deriving Repr

def instanceManagerLockPath (tmpdir : String) (opts : InstanceManagerOptions) :
    String :=
  opts.lockPath.getD (tmpdir ++ "/mcp-kit-8989.lock")

def instanceManagerPort (opts : InstanceManagerOptions) : Nat :=
  opts.port.getD 8989

/-- The default lock path the specification describes:
`<os-tempdir>/mcp-kit-<port>.lock`.  Stated from the spec's words, for
comparison with `instanceManagerLockPath`. -/
def specDefaultLockPath (tmpdir : String) (port : Nat) : String :=
  tmpdir ++ "/mcp-kit-" ++ toString port ++ ".lock"

/-! ## Coordinator (`coordinateInstanceRole`)

`coordinateInstanceRole` (node-instance/index.ts:328-391) issues a strictly
sequential series of calls on its `InstanceManager`.  The environment's
answers are collected in `CoordEnv`: one Boolean per `tryBecomeMain` call
site (the initial attempt, the stale-lock retry, the post-transition
attempt), the `readLock` result, the PID-liveness oracle, the
`fetchMainVersion` result, the `requestMainTransition` result and the
`waitForPort` result (which the source awaits but never reads).  The
function returns both the outcome — `Except` for the two `throw new Error`
sites — and the trace of manager calls in program order. -/

inductive MainReason where
  | initial
  | lockMissing
  | staleLock
  | versionTransition
deriving Repr, DecidableEq

/-- `CoordinateInstanceResult`: `status: 'main'` with a reason and optional
`previousVersion`, or `status: 'proxy'` with `reason: 'existing-main'` and
the (possibly null) `mainVersion`. -/
inductive CoordResult where
  | main (reason : MainReason) (previousVersion : Option String)
  | proxy (mainVersion : Option String)
deriving Repr, DecidableEq

/-- The two `throw new Error(...)` sites of `coordinateInstanceRole`,
named after the spec's error taxonomy. -/
inductive CoordError where
  | transitionDenied
  | transitionRaceLost
deriving Repr, DecidableEq

/-- The message string the source throws for each error. -/
def CoordError.message : CoordError → String
  | CoordError.transitionDenied =>
      "Failed to transition existing main instance to proxy mode."
  | CoordError.transitionRaceLost =>
      "Failed to assume main role after successful transition request."

structure CoordEnv where
  try1 : Bool
  try2 : Bool
  try3 : Bool
  readLockResult : Option InstanceLock
  alive : Int → Bool
  fetchMainVersionResult : Option String
  requestMainTransitionResult : Bool
  waitForPortResult : Bool

/-- One entry per `instanceManager` call the coordinator makes, carrying the
result the environment returned. -/
inductive CoordEv where
  | tryBecomeMain (r : Bool)
  | readLock (r : Option InstanceLock)
  | removeLock
  | fetchMainVersion (r : Option String)
  | requestMainTransition (r : Bool)
  | waitForPort (r : Bool)
deriving Repr, DecidableEq

/-- The staleness test of line 346:
`!inspectedLock || !InstanceManager.isPidAlive(inspectedLock.pid)`. -/
def lockIsStale (alive : Int → Bool) (inspected : Option InstanceLock) : Bool :=
  match inspected with
  | none => true
  | some l => !(isPidAlive alive l.pid)

/-- Lines 360-390 of `coordinateInstanceRole`: fetch the main's version;
if it differs from the desired version (JS `!==`, so a `null` fetch always
differs) request a transition, failing with `TransitionDenied` when denied,
then await `waitForPort` (result unused), `removeLock`, and a final
`tryBecomeMain` that either yields `main(version-transition)` or throws
`TransitionRaceLost`; if the versions match, commit to
`proxy(existing-main)`. -/
def versionComparisonPhase (desiredVersion : String) (env : CoordEnv) :
    Except CoordError CoordResult × List CoordEv :=
  let mv := env.fetchMainVersionResult
  if mv ≠ some desiredVersion then
    if !env.requestMainTransitionResult then
      (Except.error CoordError.transitionDenied,
       [CoordEv.fetchMainVersion mv, CoordEv.requestMainTransition false])
    else
      let tr := [CoordEv.fetchMainVersion mv, CoordEv.requestMainTransition true,
                 CoordEv.waitForPort env.waitForPortResult, CoordEv.removeLock,
                 CoordEv.tryBecomeMain env.try3]
      if env.try3 then
        (Except.ok (CoordResult.main MainReason.versionTransition mv), tr)
      else
        (Except.error CoordError.transitionRaceLost, tr)
  else
    (Except.ok (CoordResult.proxy mv), [CoordEv.fetchMainVersion mv])

/-- `coordinateInstanceRole` (node-instance/index.ts:328-391).  The
`desiredVersion` argument is the already-defaulted
`options.desiredVersion ?? instanceManager.version` of line 332;
`removeStaleLock` defaults to `true` at line 331. -/
def coordinateInstanceRole (removeStaleLock : Bool) (desiredVersion : String)
    (env : CoordEnv) : Except CoordError CoordResult × List CoordEv :=
  if env.try1 then
    (Except.ok (CoordResult.main MainReason.initial none),
     [CoordEv.tryBecomeMain true])
  else if removeStaleLock then
    let inspected := env.readLockResult
    if lockIsStale env.alive inspected then
      if env.try2 then
        (Except.ok (CoordResult.main
            (if inspected.isSome then MainReason.staleLock else MainReason.lockMissing)
            none),
         [CoordEv.tryBecomeMain false, CoordEv.readLock inspected,
          CoordEv.removeLock, CoordEv.tryBecomeMain true])
      else
        let (r, tr) := versionComparisonPhase desiredVersion env
        (r, [CoordEv.tryBecomeMain false, CoordEv.readLock inspected,
             CoordEv.removeLock, CoordEv.tryBecomeMain false] ++ tr)
    else
      let (r, tr) := versionComparisonPhase desiredVersion env
      (r, [CoordEv.tryBecomeMain false, CoordEv.readLock inspected] ++ tr)
  else
    let (r, tr) := versionComparisonPhase desiredVersion env
    (r, [CoordEv.tryBecomeMain false] ++ tr)

/-! ## `waitForPort`

`InstanceManager.waitForPort` (node-instance/index.ts:192-208):

    const timeout = timeoutMs ?? 10000;
    const start = Date.now();
    while (Date.now() - start < timeout) {
        try { /* bind an ephemeral listener on this.port */ return true; }
        catch { await sleep(300); }
    }
    return false;

Elapsed time is the milliseconds consumed so far (each failed bind costs
the 300 ms sleep); the oracle `bindOk` answers whether the bind at a given
elapsed time succeeds.  The loop guard is evaluated *before* any bind is
attempted, so a zero timeout performs no probe at all. -/

def waitForPortFrom (bindOk : Nat → Bool) (timeout : Nat) (elapsed : Nat) : Bool :=
  if elapsed < timeout then
    if bindOk elapsed then true
    else waitForPortFrom bindOk timeout (elapsed + 300)
  else false
termination_by timeout - elapsed
decreasing_by omega

def waitForPort (bindOk : Nat → Bool) (timeoutMs : Option Nat) : Bool :=
  waitForPortFrom bindOk (timeoutMs.getD 10000) 0

/-! ## Reverse proxy (`proxy/index.ts`)

`createProxyApp` registers a single catch-all handler.  The upstream URL is
built from `c.req.path` — Hono's `HonoRequest.path` is the *pathname*
component of the request URL, with the query string stripped (Hono exposes
the query separately via `c.req.query()`).  The upstream request is
`new Request(targetUrl, c.req.raw)`: per the Fetch standard, the URL comes
from the first argument while method, headers and body are taken from the
original request.  Metadata headers are then `Headers.set` on it.  The
`fetch` is wrapped in `try`/`catch`; the `catch` returns
`c.json({error: 'Proxy error', message}, 502)`. -/

structure ProxyMetadata where
  mainVersion : Option String := none
  mainPort : Nat
  instanceId : Option String := none
  startTime : Option Nat := none
deriving Repr, DecidableEq

structure IncomingRequest where
  method : String
  pathname : String
  query : Option String := none
  headers : List (String × String) := []
  body : Option String := none
deriving Repr, DecidableEq

structure UpstreamRequest where
  url : String
  method : String
  headers : List (String × String)
  body : Option String
deriving Repr, DecidableEq

/-- Hono's `c.req.path`: the pathname only; the query string is not part of
it. -/
def honoReqPath (r : IncomingRequest) : String :=
  r.pathname

/-- `Headers.set`: replace any existing value for the key. -/
def setHeader (hs : List (String × String)) (k v : String) :
    List (String × String) :=
  hs.filter (fun p => p.1 != k) ++ [(k, v)]

/-- The metadata block of `createProxyApp` (proxy/index.ts:24-35).  The
source guards each optional header with JS truthiness, so an empty version
string or a zero start time is skipped. -/
def applyMetadataHeaders (metadata : Option ProxyMetadata)
    (hs : List (String × String)) : List (String × String) :=
  match metadata with
  | none => hs
  | some m =>
      let hs := match m.mainVersion with
        | some v => if v ≠ "" then setHeader hs "X-Proxy-Main-Version" v else hs
        | none => hs
      let hs := match m.instanceId with
        | some i => if i ≠ "" then setHeader hs "X-Proxy-Instance-Id" i else hs
        | none => hs
      let hs := match m.startTime with
        | some t => if t ≠ 0 then setHeader hs "X-Proxy-Start-Time" (toString t) else hs
        | none => hs
      setHeader hs "X-Proxy-Main-Port" (toString m.mainPort)

/-- The upstream request `createProxyApp` hands to `fetch`
(proxy/index.ts:21-35). -/
def buildUpstreamRequest (targetPort : Nat) (metadata : Option ProxyMetadata)
    (r : IncomingRequest) : UpstreamRequest :=
  let targetUrl := "http://127.0.0.1:" ++ toString targetPort ++ honoReqPath r
  { url := targetUrl
    method := r.method
    headers := applyMetadataHeaders metadata r.headers
    body := r.body }

/-- The URL the incoming request addresses, rebased onto the target port —
what a query-preserving forwarder would request.  Stated from the spec's
words ("Request forwarding preserves method, path, query, headers, and
body"), for comparison with `buildUpstreamRequest`. -/
def specForwardedUrl (targetPort : Nat) (r : IncomingRequest) : String :=
  "http://127.0.0.1:" ++ toString targetPort ++ r.pathname ++
    (match r.query with
     | some q => "?" ++ q
     | none => "")

structure UpstreamResponse where
  status : Nat
  headers : List (String × String)
  body : String
deriving Repr, DecidableEq

/-- What the `fetch` to the upstream did: delivered a response, or failed
with a transport error (`none` models a thrown value that is not an
`Error`, which the source maps to `'Unknown error'`). -/
inductive FetchOutcome where
  | ok (resp : UpstreamResponse)
  | transportError (message : Option String)
deriving Repr, DecidableEq

inductive ProxyResponse where
  | upstream (resp : UpstreamResponse)
  | json (status : Nat) (payload : Json)
deriving Repr, BEq

/-- The response path of `createProxyApp`'s handler (proxy/index.ts:37-44):
`new Response(resp.body, resp)` on success, and on any caught error the
502 JSON body `{error: 'Proxy error', message}`. -/
def handleProxyFetch : FetchOutcome → ProxyResponse
  | FetchOutcome.ok resp => ProxyResponse.upstream resp
  | FetchOutcome.transportError msg =>
      ProxyResponse.json 502
        (Json.obj [("error", Json.str "Proxy error"),
                   ("message", Json.str (msg.getD "Unknown error"))])

/-- The proxy server over a sequence of requests: every request is handled
independently by the same total handler, so each gets a response no matter
what happened to the ones before it. -/
def serveProxyRequests (outcomes : List FetchOutcome) : List ProxyResponse :=
  outcomes.map handleProxyFetch

/-! ## `startMcpServer` (server-starter.ts:104-211)

After constructing the instance manager, `startMcpServer` makes exactly one
coordination call: `await instanceManager.tryBecomeMain()`.  When it
returns `false` the function immediately commits to proxy mode — stdio
bridge or HTTP reverse proxy by CLI mode — and returns; the "main version"
it logs and puts into the proxy metadata is `instanceManager.version`, the
local process's own version getter.  The trace type lists the other
manager operations (`readLock`, `fetchMainVersion`, …) so that their
absence from the recorded trace is expressible.  The main-instance branch
continues with port freeing and server startup, which no claim here
touches, so it is summarised by a single outcome constructor. -/

inductive ServerMode where
  | stdio
  | http
deriving Repr, DecidableEq

inductive StarterEv where
  | tryBecomeMain (r : Bool)
  | readLock
  | fetchMainVersion
  | requestMainTransition
  | isPidAliveProbe
  | waitForPort
deriving Repr, DecidableEq

inductive StartOutcome where
  | stdioProxy (mainPort : Nat) (loggedMainVersion : String)
  | httpProxy (targetPort : Nat) (listenPort : Nat) (metadata : ProxyMetadata)
      (loggedMainVersion : String)
  | mainInstance
deriving Repr, DecidableEq

def startMcpServer (tryBecomeMainResult : Bool) (mode : ServerMode)
    (managerVersion : String) (managerPort : Nat) (cliPort : Nat) (now : Nat) :
    StartOutcome × List StarterEv :=
  if !tryBecomeMainResult then
    let mainVersion := managerVersion
    match mode with
    | ServerMode.stdio =>
        (StartOutcome.stdioProxy managerPort mainVersion,
         [StarterEv.tryBecomeMain false])
    | ServerMode.http =>
        (StartOutcome.httpProxy managerPort cliPort
           { mainVersion := some mainVersion, mainPort := managerPort,
             startTime := some now }
           mainVersion,
         [StarterEv.tryBecomeMain false])
  else
    (StartOutcome.mainInstance, [StarterEv.tryBecomeMain true])

/-! ## Racing `tryBecomeMain` across processes

The lock file is the only shared state, and every mutation of it by the
election path is a single atomic filesystem operation (`open 'wx'`,
`unlink`).  A concurrent execution of several processes is therefore an
interleaving: a list of atomic operations, each a `tryBecomeMain` by some
process (running the `tryBecomeMain` model above on the shared state) or a
`removeLock`. -/

inductive LockOp where
  | tryCreate (who : InstanceLock)
  | removeLock
deriving Repr, DecidableEq

/-- Execute one atomic operation of the interleaving on the shared lock
path.  The Boolean is the value the issuing `tryBecomeMain` call returned
(`false` also for a thrown non-EEXIST error — a throwing call certainly did
not return `true`). -/
def raceStep (fs : FsState) : LockOp → FsState × Bool
  | LockOp.tryCreate who =>
      match tryBecomeMain fs who with
      | Except.ok (b, fs2) => (fs2, b)
      | Except.error _ => (fs, false)
  | LockOp.removeLock => (removeLock fs, false)

/-- How many `tryBecomeMain` calls in the interleaving returned `true`. -/
def successCount (fs : FsState) : List LockOp → Nat
  | [] => 0
  | op :: rest =>
      let s := raceStep fs op
      (if s.2 then 1 else 0) + successCount s.1 rest

/-! ## Theorems -/

/-- Helper: a JSON document with a missing or wrongly typed `pid`,
`version` or `timestamp` field fails the lock decoder. -/
theorem decodeLock_eq_none_of_badField (j : Json)
    (h : isJsonNum (getField j "pid") = false ∨
         isJsonStr (getField j "version") = false ∨
         isJsonNum (getField j "timestamp") = false) :
    decodeLock j = none := by
  unfold decodeLock
  rcases hp : getField j "pid" with _ | p <;>
    rcases hv : getField j "version" with _ | v <;>
      rcases ht : getField j "timestamp" with _ | t <;>
        simp [hp, hv, ht, isJsonNum, isJsonStr] at h ⊢ <;>
          cases p <;> try cases v <;> try cases t <;> simp_all [isJsonNum, isJsonStr]

/-- C5: For every possible state of the lock file — absent, empty, non-JSON
content, or JSON with missing or wrongly typed `pid`/`version`/`timestamp`
fields — `readLock` returns `null` and never throws. -/
theorem readLock_null_on_all_corruption :
    (∀ fs, ∃ r, readLock fs = Except.ok r) ∧
    (∀ pd io,
       readLock { entry := none, permissionDenied := pd, ioError := io } =
         Except.ok none) ∧
    (∀ pd io,
       readLock { entry := some (FsNode.file none), permissionDenied := pd,
                  ioError := io } = Except.ok none) ∧
    (∀ j pd io,
       (isJsonNum (getField j "pid") = false ∨
        isJsonStr (getField j "version") = false ∨
        isJsonNum (getField j "timestamp") = false) →
       readLock { entry := some (FsNode.file (some j)), permissionDenied := pd,
                  ioError := io } = Except.ok none) := by
  refine ⟨?_, fun _ _ => rfl, fun _ _ => rfl, ?_⟩
  · intro fs
    rcases fs with ⟨_ | (⟨_ | j⟩ | _), pd, io⟩ <;> exact ⟨_, rfl⟩
  · intro j pd io h
    simp [readLock, decodeLock_eq_none_of_badField j h]

/-- C5 witness: a lock file holding the JSON document `5` (parses, but is
not an object, so every field is missing) reads as `null`. -/
theorem readLock_null_on_all_corruption_witness :
    readLock { entry := some (FsNode.file (some (Json.num 5))) } =
      Except.ok none :=
  readLock_null_on_all_corruption.2.2.2 (Json.num 5) false false (by decide)

/-- C4 counterexample: with a directory occupying the lock path, the
exclusive-create open fails with `EEXIST`, so `tryBecomeMain` returns
`false` — it does not propagate a thrown error, contrary to the claim that
"the path being a directory" is propagated rather than returned as `false`.
The repository's own test ("permission error (directory instead of file)
prevents becoming main", base-instance-manager.test.ts:85-90) expects
exactly this `false` return. -/
theorem tryBecomeMain_directory_counterexample :
    tryBecomeMain { entry := some FsNode.directory }
        { pid := 1, version := "1.0.0", timestamp := 0 } =
      Except.ok (false, { entry := some FsNode.directory }) := rfl

/-- C4 amended: `tryBecomeMain` returns `false` iff the exclusive-create
open fails with `EEXIST`, which happens iff *anything* exists at the lock
path — a directory included, so a directory yields `false`; every failure
other than `EEXIST` (permissions, I/O) is propagated as a thrown error. -/
theorem tryBecomeMain_false_iff_eexist (fs : FsState) (self : InstanceLock) :
    ((∃ fs2, tryBecomeMain fs self = Except.ok (false, fs2)) ↔
       openWx fs = Except.error SysError.EEXIST) ∧
    (openWx fs = Except.error SysError.EEXIST ↔ fs.entry.isSome = true) ∧
    (fs.entry = some FsNode.directory →
       tryBecomeMain fs self = Except.ok (false, fs)) ∧
    (∀ e, e ≠ SysError.EEXIST →
       (tryBecomeMain fs self = Except.error e ↔ openWx fs = Except.error e)) := by
  rcases fs with ⟨_ | n, pd, io⟩
  · cases pd <;> cases io <;>
      refine ⟨by simp [tryBecomeMain, openWx], by simp [openWx], by simp, ?_⟩ <;>
        intro e he <;> cases e <;> simp_all [tryBecomeMain, openWx]
  · refine ⟨by simp [tryBecomeMain, openWx], by simp [openWx], ?_, ?_⟩
    · intro h
      simp [tryBecomeMain, openWx]
    · intro e he
      cases e <;> simp_all [tryBecomeMain, openWx]

/-- C4 witness: with a free path but no write permission, the open fails
with `EACCES` and `tryBecomeMain` propagates it as a thrown error. -/
theorem tryBecomeMain_false_iff_eexist_witness :
    tryBecomeMain { entry := none, permissionDenied := true }
        { pid := 1, version := "1.0.0", timestamp := 0 } =
      Except.error SysError.EACCES :=
  ((tryBecomeMain_false_iff_eexist
      { entry := none, permissionDenied := true }
      { pid := 1, version := "1.0.0", timestamp := 0 }).2.2.2
    SysError.EACCES (by decide)).mpr (by rfl)

/-- C6: the constructor's default lock path is the literal
`mcp-kit-8989.lock`, ignoring the configured port: an `InstanceManager`
configured with port 9000 and no explicit `lockPath` coordinates through
`<tmpdir>/mcp-kit-8989.lock`, not the `<tmpdir>/mcp-kit-9000.lock` the
specification's `mcp-kit-<port>.lock` rule names. -/
theorem instanceManagerLockPath_hardcodes_8989 :
    instanceManagerPort { port := some 9000 } = 9000 ∧
    instanceManagerLockPath "/tmp" { port := some 9000 } =
      "/tmp/mcp-kit-8989.lock" ∧
    instanceManagerLockPath "/tmp" { port := some 9000 } ≠
      specDefaultLockPath "/tmp" 9000 := by
  refine ⟨rfl, rfl, ?_⟩
  decide

/-- C7: code-bug evidence — the proxy rebuilds the upstream URL from Hono's
`c.req.path`, which is the pathname only, so the query string of the
incoming request is dropped: `GET /a?b=1` is forwarded to
`http://127.0.0.1:8989/a`, not to the query-preserving URL the
specification requires ("Request forwarding preserves method, path, query,
headers, and body").  Method, headers and body are carried over unchanged
by `new Request(targetUrl, c.req.raw)`. -/
theorem proxy_forwarding_drops_query_string :
    (buildUpstreamRequest 8989 none
        { method := "GET", pathname := "/a", query := some "b=1",
          headers := [("accept", "application/json")], body := none }).url =
      "http://127.0.0.1:8989/a" ∧
    specForwardedUrl 8989
        { method := "GET", pathname := "/a", query := some "b=1",
          headers := [("accept", "application/json")], body := none } =
      "http://127.0.0.1:8989/a?b=1" ∧
    (buildUpstreamRequest 8989 none
        { method := "GET", pathname := "/a", query := some "b=1",
          headers := [("accept", "application/json")], body := none }).url ≠
      "http://127.0.0.1:8989/a?b=1" ∧
    (buildUpstreamRequest 8989 none
        { method := "GET", pathname := "/a", query := some "b=1",
          headers := [("accept", "application/json")], body := none }).method =
      "GET" ∧
    (buildUpstreamRequest 8989 none
        { method := "GET", pathname := "/a", query := some "b=1",
          headers := [("accept", "application/json")], body := none }).headers =
      [("accept", "application/json")] := by
  refine ⟨rfl, rfl, ?_, rfl, rfl⟩
  decide

/-- C8: every upstream transport failure is answered with a 502 whose JSON
body has the `error` and `message` fields, and the handler is a total
function applied to each request independently, so a failing request never
prevents the requests after it from being served. -/
theorem proxy_502_on_transport_error :
    (∀ msg, handleProxyFetch (FetchOutcome.transportError (some msg)) =
       ProxyResponse.json 502
         (Json.obj [("error", Json.str "Proxy error"),
                    ("message", Json.str msg)])) ∧
    (handleProxyFetch (FetchOutcome.transportError none) =
       ProxyResponse.json 502
         (Json.obj [("error", Json.str "Proxy error"),
                    ("message", Json.str "Unknown error")])) ∧
    (∀ pre msg post,
       serveProxyRequests (pre ++ FetchOutcome.transportError msg :: post) =
         serveProxyRequests pre ++
           handleProxyFetch (FetchOutcome.transportError msg) ::
             serveProxyRequests post) := by
  refine ⟨fun msg => rfl, rfl, fun pre msg post => ?_⟩
  simp [serveProxyRequests]

/-- C9 counterexample: with the target port free (every bind attempt would
succeed), `waitForPort` called with timeout 0 still returns `false` — the
`while (Date.now() - start < timeout)` guard fails before any bind is
attempted — where the claim says it returns `true` when the port is
free. -/
theorem waitForPort_zero_free_counterexample :
    waitForPort (fun _ => true) (some 0) = false := by
  unfold waitForPort waitForPortFrom
  simp

/-- C9 amended: `waitForPort` with timeout 0 returns `false` immediately,
whether the port is held or free: the loop guard is checked before any
bind attempt, so a zero budget performs no probe at all. -/
theorem waitForPort_zero_timeout_false (bindOk : Nat → Bool) :
    waitForPort bindOk (some 0) = false := by
  unfold waitForPort waitForPortFrom
  simp

/-- C10: when `startMcpServer`'s single `tryBecomeMain` call returns
`false`, it commits to proxy mode immediately — the call trace holds
nothing but that one call, so no lock read, PID probe, version fetch or
transition request happens — and the "main version" it logs and attaches
as the proxy metadata's `mainVersion` is the local process's own
`instanceManager.version`, not a value obtained from the running main. -/
theorem startMcpServer_immediate_proxy_uses_local_version
    (mode : ServerMode) (managerVersion : String)
    (managerPort cliPort now : Nat) :
    (startMcpServer false mode managerVersion managerPort cliPort now).2 =
      [StarterEv.tryBecomeMain false] ∧
    (startMcpServer false mode managerVersion managerPort cliPort now).1 =
      (match mode with
       | ServerMode.stdio =>
           StartOutcome.stdioProxy managerPort managerVersion
       | ServerMode.http =>
           StartOutcome.httpProxy managerPort cliPort
             { mainVersion := some managerVersion, mainPort := managerPort,
               startTime := some now }
             managerVersion) := by
  cases mode <;> exact ⟨rfl, rfl⟩

/-- Helper: the version-comparison phase when the fetched main version
differs from the desired one (a `null` fetch always differs under JS
`!==`). -/
theorem versionComparisonPhase_of_ne (desiredVersion : String) (env : CoordEnv)
    (h : env.fetchMainVersionResult ≠ some desiredVersion) :
    versionComparisonPhase desiredVersion env =
      (if env.requestMainTransitionResult then
         if env.try3 then
           Except.ok (CoordResult.main MainReason.versionTransition
             env.fetchMainVersionResult)
         else Except.error CoordError.transitionRaceLost
       else Except.error CoordError.transitionDenied,
       [CoordEv.fetchMainVersion env.fetchMainVersionResult,
        CoordEv.requestMainTransition env.requestMainTransitionResult] ++
         (if env.requestMainTransitionResult then
            [CoordEv.waitForPort env.waitForPortResult, CoordEv.removeLock,
             CoordEv.tryBecomeMain env.try3]
          else [])) := by
  unfold versionComparisonPhase
  rw [if_pos h]
  cases hr : env.requestMainTransitionResult <;> cases ht : env.try3 <;>
    simp [hr, ht]

/-- C2: whenever the initial `tryBecomeMain` (and the stale-lock retry, if
taken) fails and the fetched main version differs from the desired version
(a `null` fetch included), the coordinator calls `requestMainTransition`;
a `false` answer throws `TransitionDenied`; otherwise it calls
`waitForPort`, then `removeLock`, then `tryBecomeMain`, and on success
returns `main` with reason `version-transition` and `previousVersion`
equal to the fetched main version, while a failing final `tryBecomeMain`
throws `TransitionRaceLost`. -/
theorem coordinate_version_transition_path (removeStaleLock : Bool)
    (desiredVersion : String) (env : CoordEnv)
    (h1 : env.try1 = false)
    (h2 : removeStaleLock = true →
          lockIsStale env.alive env.readLockResult = true → env.try2 = false)
    (h3 : env.fetchMainVersionResult ≠ some desiredVersion) :
    ∃ pre,
      coordinateInstanceRole removeStaleLock desiredVersion env =
        (if env.requestMainTransitionResult then
           if env.try3 then
             Except.ok (CoordResult.main MainReason.versionTransition
               env.fetchMainVersionResult)
           else Except.error CoordError.transitionRaceLost
         else Except.error CoordError.transitionDenied,
         pre ++ [CoordEv.fetchMainVersion env.fetchMainVersionResult,
                 CoordEv.requestMainTransition env.requestMainTransitionResult] ++
           (if env.requestMainTransitionResult then
              [CoordEv.waitForPort env.waitForPortResult, CoordEv.removeLock,
               CoordEv.tryBecomeMain env.try3]
            else [])) := by
  have hp := versionComparisonPhase_of_ne desiredVersion env h3
  cases hrs : removeStaleLock with
  | false =>
      exact ⟨[CoordEv.tryBecomeMain false],
        by simp [coordinateInstanceRole, h1, hp]⟩
  | true =>
      cases hst : lockIsStale env.alive env.readLockResult with
      | false =>
          exact ⟨[CoordEv.tryBecomeMain false, CoordEv.readLock env.readLockResult],
            by simp [coordinateInstanceRole, h1, hst, hp]⟩
      | true =>
          have h2' := h2 hrs hst
          exact ⟨[CoordEv.tryBecomeMain false, CoordEv.readLock env.readLockResult,
                  CoordEv.removeLock, CoordEv.tryBecomeMain false],
            by simp [coordinateInstanceRole, h1, hst, h2', hp]⟩

/-- C2 witness: main unreachable (`fetchMainVersion` → `null`), transition
accepted, final `tryBecomeMain` succeeds — outcome
`main(version-transition, previousVersion = null)` with the full call
sequence. -/
theorem coordinate_version_transition_path_witness :
    ∃ pre,
      coordinateInstanceRole true "2.0.0"
        { try1 := false, try2 := false, try3 := true, readLockResult := none,
          alive := fun _ => true, fetchMainVersionResult := none,
          requestMainTransitionResult := true, waitForPortResult := true } =
      (Except.ok (CoordResult.main MainReason.versionTransition none),
       pre ++ [CoordEv.fetchMainVersion none, CoordEv.requestMainTransition true] ++
         [CoordEv.waitForPort true, CoordEv.removeLock,
          CoordEv.tryBecomeMain true]) :=
  coordinate_version_transition_path true "2.0.0"
    { try1 := false, try2 := false, try3 := true, readLockResult := none,
      alive := fun _ => true, fetchMainVersionResult := none,
      requestMainTransitionResult := true, waitForPortResult := true }
    rfl (fun _ _ => rfl) (by decide)

/-- C3: with `removeStaleLock` enabled and the initial `tryBecomeMain`
failed, the coordinator reads the lock and treats it as stale iff the read
returned `null` or `isPidAlive(record.pid)` is false; if stale it removes
the lock and retries `tryBecomeMain`, and on success returns `main` with
reason `stale-lock` when a parsed record was present and `lock-missing`
when the read returned `null` (which, by `readLock_null_on_all_corruption`,
is what a corrupt lock file produces). -/
theorem coordinate_stale_lock_reclaim (desiredVersion : String) (env : CoordEnv)
    (h1 : env.try1 = false) :
    (lockIsStale env.alive env.readLockResult = true ↔
       (env.readLockResult = none ∨
        ∃ l, env.readLockResult = some l ∧ isPidAlive env.alive l.pid = false)) ∧
    (lockIsStale env.alive env.readLockResult = true → env.try2 = true →
       coordinateInstanceRole true desiredVersion env =
         (Except.ok (CoordResult.main
             (if env.readLockResult.isSome then MainReason.staleLock
              else MainReason.lockMissing) none),
          [CoordEv.tryBecomeMain false, CoordEv.readLock env.readLockResult,
           CoordEv.removeLock, CoordEv.tryBecomeMain true])) ∧
    (env.readLockResult = none → env.try2 = true →
       (coordinateInstanceRole true desiredVersion env).1 =
         Except.ok (CoordResult.main MainReason.lockMissing none)) := by
  refine ⟨?_, ?_, ?_⟩
  · cases hr : env.readLockResult with
    | none => simp [lockIsStale]
    | some l => simp [lockIsStale]
  · intro hst ht2
    simp [coordinateInstanceRole, h1, hst, ht2]
  · intro hr ht2
    simp [coordinateInstanceRole, h1, ht2, hr, lockIsStale]

/-- C3 witness: lock record `{pid = 999999, …}` with no such live process —
reclaimed, outcome `main(stale-lock)` after read, remove and retry. -/
theorem coordinate_stale_lock_reclaim_witness :
    coordinateInstanceRole true "1.0.0"
        { try1 := false, try2 := true, try3 := false,
          readLockResult := some { pid := 999999, version := "x", timestamp := 0 },
          alive := fun _ => false, fetchMainVersionResult := none,
          requestMainTransitionResult := false, waitForPortResult := false } =
      (Except.ok (CoordResult.main MainReason.staleLock none),
       [CoordEv.tryBecomeMain false,
        CoordEv.readLock (some { pid := 999999, version := "x", timestamp := 0 }),
        CoordEv.removeLock, CoordEv.tryBecomeMain true]) :=
  (coordinate_stale_lock_reclaim "1.0.0"
    { try1 := false, try2 := true, try3 := false,
      readLockResult := some { pid := 999999, version := "x", timestamp := 0 },
      alive := fun _ => false, fetchMainVersionResult := none,
      requestMainTransitionResult := false, waitForPortResult := false }
    rfl).2.1 (by decide) rfl

/-- Helper: while something occupies the lock path and no `removeLock`
occurs, every racing `tryBecomeMain` gets `EEXIST` and returns `false`. -/
theorem successCount_of_occupied (fs : FsState) (ops : List LockOp)
    (hfs : fs.entry.isSome = true) (h : ∀ op ∈ ops, op ≠ LockOp.removeLock) :
    successCount fs ops = 0 := by
  induction ops generalizing fs with
  | nil => rfl
  | cons op rest ih =>
      cases op with
      | removeLock => exact absurd rfl (h _ (List.mem_cons_self _ _))
      | tryCreate who =>
          rcases hfs' : fs.entry with _ | n
          · rw [hfs'] at hfs
            simp at hfs
          · have hstep : raceStep fs (LockOp.tryCreate who) = (fs, false) := by
              simp [raceStep, tryBecomeMain, openWx, hfs']
            simp only [successCount, hstep]
            simpa using ih fs hfs (fun o hm => h o (List.mem_cons_of_mem _ hm))

/-- C1: in any interleaving of atomic lock operations by any set of
processes that contains no `removeLock`, at most one `tryBecomeMain`
returns `true` — the exclusive-create (`'wx'`) open embedded in
`tryBecomeMain` is what refuses every attempt after the first success. -/
theorem tryBecomeMain_at_most_one_success (fs : FsState) (ops : List LockOp)
    (h : ∀ op ∈ ops, op ≠ LockOp.removeLock) :
    successCount fs ops ≤ 1 := by
  induction ops generalizing fs with
  | nil => simp [successCount]
  | cons op rest ih =>
      have hrest : ∀ o ∈ rest, o ≠ LockOp.removeLock :=
        fun o hm => h o (List.mem_cons_of_mem _ hm)
      cases op with
      | removeLock => exact absurd rfl (h _ (List.mem_cons_self _ _))
      | tryCreate who =>
          rcases hfs : fs.entry with _ | n
          · by_cases hpd : fs.permissionDenied = true
            · have hstep : raceStep fs (LockOp.tryCreate who) = (fs, false) := by
                simp [raceStep, tryBecomeMain, openWx, hfs, hpd]
              simp only [successCount, hstep]
              simpa using ih fs hrest
            · by_cases hio : fs.ioError = true
              · have hstep : raceStep fs (LockOp.tryCreate who) = (fs, false) := by
                  simp [raceStep, tryBecomeMain, openWx, hfs, hpd, hio]
                simp only [successCount, hstep]
                simpa using ih fs hrest
              · have hstep : raceStep fs (LockOp.tryCreate who) =
                    ({ fs with entry := some (FsNode.file (some (lockJson who))) },
                     true) := by
                  simp [raceStep, tryBecomeMain, openWx, hfs, hpd, hio]
                simp only [successCount, hstep]
                have h0 := successCount_of_occupied
                  { fs with entry := some (FsNode.file (some (lockJson who))) }
                  rest (by simp) hrest
                simp [h0]
          · have hstep : raceStep fs (LockOp.tryCreate who) = (fs, false) := by
              simp [raceStep, tryBecomeMain, openWx, hfs]
            simp only [successCount, hstep]
            have h0 := successCount_of_occupied fs rest (by simp [hfs]) hrest
            simp [h0]

/-- C1 witness: three processes race on a free lock path; exactly the
first `tryBecomeMain` wins, so the success count is at most one. -/
theorem tryBecomeMain_at_most_one_success_witness :
    successCount { entry := none }
        [LockOp.tryCreate { pid := 1, version := "1.0.0", timestamp := 0 },
         LockOp.tryCreate { pid := 2, version := "2.0.0", timestamp := 5 },
         LockOp.tryCreate { pid := 3, version := "1.0.0", timestamp := 9 }] ≤ 1 :=
  tryBecomeMain_at_most_one_success _ _ (by decide)
